import Mathlib

/-!
Verification of `src/finetuning/config.py`: a shallow embedding of the
configuration dataclasses (`ModelConfig`, `DataConfig`, `TrainingConfig`,
`HuggingFaceConfig`, `ExperimentConfig`), of the post-construction derivation
step `ExperimentConfig.__post_init__`, and of the environment-overlay function
`load_config_from_env`, together with theorems settling the spec claims.

Embedding conventions:
- Python `float` literals are embedded as exact rationals (the module never
  computes with them, it only stores and copies them);
- Python `str.lower()` is embedded as `py_lower`, mapping `Char.toLower` over
  the characters (identical on the ASCII inputs relevant here);
- a Python f-string such as `f"x-y-qlora"` is embedded as string append;
- the process environment is an explicit map `Env := String → Option String`
  (membership test `k in os.environ` is `env k ≠ none`, lookup is `env k`);
- the `assert` in `load_config_from_env` is embedded by returning
  `Except.error` with the assertion message instead of a normal result.
-/

/-- `ModelConfig` (config.py lines 6-26) with its literal field defaults. -/
structure ModelConfig where
  model_name : String := "codellama/CodeLlama-7b-Python-hf"
  use_4bit : Bool := true
  bnb_4bit_compute_dtype : String := "float16"
  bnb_4bit_quant_type : String := "nf4"
  use_nested_quant : Bool := false
  lora_r : Nat := 64
  lora_alpha : Nat := 16
  lora_dropout : ℚ := 0.1
  lora_target_modules : List String :=
    ["q_proj", "k_proj", "v_proj", "o_proj", "gate_proj", "up_proj", "down_proj"]
  max_seq_length : Nat := 1024
  trust_remote_code : Bool := true
deriving DecidableEq

/-- `DataConfig` (config.py lines 29-38) with its literal field defaults. -/
structure DataConfig where
  dataset_name : String := "mbpp"
  split : String := "train"
  max_prompt_length : Nat := 512
  max_completion_length : Nat := 512
  train_test_split : ℚ := 0.9
  num_proc : Nat := 4
  max_samples : Option Nat := none
deriving DecidableEq

/-- `TrainingConfig` (config.py lines 41-94) with its literal field defaults. -/
structure TrainingConfig where
  output_dir : String := "./checkpoints"
  per_device_train_batch_size : Nat := 12
  per_device_eval_batch_size : Nat := 12
  gradient_accumulation_steps : Nat := 1
  num_train_epochs : Nat := 2
  learning_rate : ℚ := 3e-6
  lr_scheduler_type : String := "cosine"
  warmup_ratio : ℚ := 0.05
  weight_decay : ℚ := 0.01
  max_grad_norm : ℚ := 0.5
  eval_steps : Nat := 250
  logging_steps : Nat := 5
  save_steps : Nat := 250
  save_total_limit : Nat := 5
  load_best_model_at_end : Bool := true
  metric_for_best_model : String := "eval_test_pass_rate"
  greater_is_better : Bool := true
  ppo_epochs : Nat := 4
  mini_batch_size : Nat := 1
  vf_coef : ℚ := 0.1
  cliprange : ℚ := 0.2
  cliprange_value : ℚ := 0.15
  gamma : ℚ := 1.0
  lam : ℚ := 0.95
  target_kl : ℚ := 0.5
  num_samples : Nat := 8
  kl_coeff : ℚ := 0.02
  clip_range : ℚ := 0.2
  entropy_coeff : ℚ := 0.01
  use_advantage_whitening : Bool := true
  advantage_norm_eps : ℚ := 1e-8
  temperature_schedule : Bool := true
  initial_temperature : ℚ := 1.0
  min_temperature : ℚ := 0.7
  max_new_tokens : Nat := 2048
  do_sample : Bool := true
  temperature : ℚ := 0.2
  top_p : ℚ := 0.9
  reward_model_path : Option String := none
  code_execution_timeout : ℚ := 3.0
deriving DecidableEq

/-- `HuggingFaceConfig` (config.py lines 97-104) with its literal field defaults. -/
structure HuggingFaceConfig where
  hub_model_id : String := "codellama-7b-mbpp-qlora"
  hub_token : Option String := none
  push_to_hub : Bool := true
  hub_private_repo : Bool := false
  hub_strategy : String := "every_save"
deriving DecidableEq

/-- `ExperimentConfig` (config.py lines 107-120): the raw field values of the
dataclass, before `__post_init__` runs. Each sub-record default corresponds to
an independent `default_factory` instance. -/
structure ExperimentConfig where
  model : ModelConfig := {}
  data : DataConfig := {}
  training : TrainingConfig := {}
  hf : HuggingFaceConfig := {}
  seed : Nat := 42
  method : String := "ppo"
  use_wandb : Bool := true
  wandb_project : String := "codellama-mbpp-finetuning"
  wandb_run_name : Option String := none
deriving DecidableEq

/-- Modelled from the spec: the naming function `extract_model_short_name` lives
in the external `train` module, which is not part of the sources here; the spec
types it as a function from a model name string to a short name string. We model
the `from train import extract_model_short_name` resolution as an optional total
function: `none` is an unresolvable import (the `ImportError` branch of
`__post_init__`), `some f` a resolvable one. This definition is the whole
try/except block of `ExperimentConfig.__post_init__` (config.py lines 124-129):
it returns `f model_name` when the import is resolvable and the literal fallback
`"codellama-7b"` otherwise. -/
def resolve_model_short_name (extract : Option (String → String)) (model_name : String) : String :=
  match extract with
  | some extract_model_short_name => extract_model_short_name model_name
  | none => "codellama-7b"

/-- `ExperimentConfig.__post_init__` (config.py lines 122-138): computes
`model_short_name` via `resolve_model_short_name` and unconditionally overwrites
`training.output_dir`, `hf.hub_model_id` and `wandb_run_name` with the derived
naming-convention strings. -/
def post_init (extract : Option (String → String)) (c : ExperimentConfig) : ExperimentConfig :=
  let model_short_name := resolve_model_short_name extract c.model.model_name
  { c with
    training := { c.training with
      output_dir := "./checkpoints/" ++ model_short_name ++ "-" ++ c.method ++ "-qlora" },
    hf := { c.hf with
      hub_model_id := model_short_name ++ "-" ++ c.method ++ "-qlora" },
    wandb_run_name := some (model_short_name ++ "-" ++ c.method ++ "-qlora") }

/-- Construction of the `ExperimentConfig` dataclass: Python populates the
(possibly caller-supplied) field values and then runs `__post_init__`. The `raw`
argument holds the field values as supplied to the constructor. -/
def mkExperimentConfig (extract : Option (String → String)) (raw : ExperimentConfig) : ExperimentConfig :=
  post_init extract raw

/-- The process environment: a map from variable name to optional value. -/
abbrev Env : Type := String → Option String

/-- Python `str.lower()`, embedded as a character map; it agrees with Python on
the ASCII strings this module handles. -/
def py_lower (s : String) : String :=
  String.mk (s.data.map Char.toLower)

/-- `load_config_from_env` (config.py lines 142-159): constructs a default
`ExperimentConfig` (running `__post_init__`), then overlays `HF_TOKEN`,
`WANDB_PROJECT` and `METHOD` from the environment; the `assert` on `method`
is embedded as `Except.error` carrying the assertion message. -/
def load_config_from_env (extract : Option (String → String)) (env : Env) :
    Except String ExperimentConfig :=
  let config := mkExperimentConfig extract {}
  let config := match env ("HF_TOKEN") with
    | some t => { config with hf := { config.hf with hub_token := some t } }
    | none => config
  let config := match env ("WANDB_PROJECT") with
    | some p => { config with wandb_project := p }
    | none => config
  match env ("METHOD") with
  | none => Except.ok config
  | some m =>
    let config := { config with method := py_lower m }
    if config.method = "ppo" ∨ config.method = "grpo" then Except.ok config
    else Except.error ("Method must be \x27ppo\x27 or \x27grpo\x27, got " ++ config.method)

/-- An empty environment: no variable is set. -/
def env_empty : Env := fun _ => none

/-- An environment with only HF_TOKEN set, to the value "abc123". -/
def env_with_token : Env := fun k => if k = "HF_TOKEN" then some ("abc123") else none

/-- The configuration `load_config_from_env` produces from `env_with_token`:
the default-constructed configuration with only the hub token overlaid. -/
def cfg_with_token : ExperimentConfig :=
  { mkExperimentConfig none {} with
    hf := { (mkExperimentConfig none ({} : ExperimentConfig)).hf with
      hub_token := some ("abc123") } }

/-- String append is associative; helper for relating the `./checkpoints/`
prefix of `output_dir` to `hub_model_id`. -/
theorem str_append_assoc (a b c : String) : a ++ b ++ c = a ++ (b ++ c) := by
  rcases a with ⟨la⟩
  rcases b with ⟨lb⟩
  rcases c with ⟨lc⟩
  show String.mk (la ++ lb ++ lc) = String.mk (la ++ (lb ++ lc))
  rw [List.append_assoc]

/-- C1: for every model_name M and every construction-time method in
{"ppo","grpo"}, immediately after constructing an `ExperimentConfig`,
`hf.hub_model_id` equals `short(M) ++ "-" ++ method ++ "-qlora"`,
`wandb_run_name` equals that same string, and `training.output_dir` equals
`"./checkpoints/" ++` that same string, where `short` is the external naming
function when resolvable and the literal `"codellama-7b"` otherwise. -/
theorem construction_naming_law (extract : Option (String → String)) (raw : ExperimentConfig)
    (hm : raw.method = "ppo" ∨ raw.method = "grpo") :
    (mkExperimentConfig extract raw).hf.hub_model_id =
      resolve_model_short_name extract raw.model.model_name ++ "-" ++ raw.method ++ "-qlora" ∧
    (mkExperimentConfig extract raw).wandb_run_name =
      some ((mkExperimentConfig extract raw).hf.hub_model_id) ∧
    (mkExperimentConfig extract raw).training.output_dir =
      "./checkpoints/" ++ (mkExperimentConfig extract raw).hf.hub_model_id ∧
    (extract = none →
      resolve_model_short_name extract raw.model.model_name = "codellama-7b") := by
  refine ⟨rfl, rfl, ?_, ?_⟩
  · simp only [mkExperimentConfig, post_init]
    simp only [str_append_assoc]
  · intro h
    subst h
    rfl

/-- C1 witness: the naming law instantiated at an unresolvable naming function
and the default construction arguments (method "ppo"). -/
theorem construction_naming_law_witness :
    (({} : ExperimentConfig).method = "ppo" ∨ ({} : ExperimentConfig).method = "grpo") ∧
    ((mkExperimentConfig none ({} : ExperimentConfig)).hf.hub_model_id =
      resolve_model_short_name none ({} : ExperimentConfig).model.model_name ++ "-" ++
        ({} : ExperimentConfig).method ++ "-qlora" ∧
    (mkExperimentConfig none ({} : ExperimentConfig)).wandb_run_name =
      some ((mkExperimentConfig none ({} : ExperimentConfig)).hf.hub_model_id) ∧
    (mkExperimentConfig none ({} : ExperimentConfig)).training.output_dir =
      "./checkpoints/" ++ (mkExperimentConfig none ({} : ExperimentConfig)).hf.hub_model_id ∧
    ((none : Option (String → String)) = none →
      resolve_model_short_name none ({} : ExperimentConfig).model.model_name = "codellama-7b")) :=
  ⟨Or.inl rfl, construction_naming_law none {} (Or.inl rfl)⟩

/-- C5: whenever the external naming function is unresolvable, the derivation
step uses the literal short name "codellama-7b" for all three derived fields,
for every value of `model.model_name` (the model name has no influence on the
result in that case: the right-hand sides below do not mention it). -/
theorem unresolvable_fallback (raw : ExperimentConfig) (m : String) :
    resolve_model_short_name none m = "codellama-7b" ∧
    (mkExperimentConfig none raw).hf.hub_model_id =
      "codellama-7b" ++ "-" ++ raw.method ++ "-qlora" ∧
    (mkExperimentConfig none raw).wandb_run_name =
      some ("codellama-7b" ++ "-" ++ raw.method ++ "-qlora") ∧
    (mkExperimentConfig none raw).training.output_dir =
      "./checkpoints/" ++ "codellama-7b" ++ "-" ++ raw.method ++ "-qlora" :=
  ⟨rfl, rfl, rfl, rfl⟩

/-- C6: for every explicitly supplied construction argument for
`training.output_dir`, `hf.hub_model_id` or `wandb_run_name`, the
post-construction derivation overwrites the supplied value: construction from
arguments with those three fields replaced by arbitrary values yields exactly
the same configuration as construction from the original arguments. -/
theorem supplied_values_overwritten (extract : Option (String → String))
    (raw : ExperimentConfig) (d i : String) (w : Option String) :
    mkExperimentConfig extract
      { raw with
        training := { raw.training with output_dir := d },
        hf := { raw.hf with hub_model_id := i },
        wandb_run_name := w } =
      mkExperimentConfig extract raw :=
  rfl

/-- C8: construction never surfaces an error to the caller: it is a total
function of the naming-function behaviour, an unresolvable naming function is
swallowed and replaced by the fallback name (construction behaves exactly as
with a resolvable function constantly returning the fallback), and a resolvable
naming function is applied normally. -/
theorem construction_never_errors (extract : Option (String → String))
    (f : String → String) (raw : ExperimentConfig) :
    mkExperimentConfig none raw = mkExperimentConfig (some (fun _ => "codellama-7b")) raw ∧
    (mkExperimentConfig extract raw).wandb_run_name =
      some (resolve_model_short_name extract raw.model.model_name ++ "-" ++
        raw.method ++ "-qlora") ∧
    (mkExperimentConfig (some f) raw).hf.hub_model_id =
      f raw.model.model_name ++ "-" ++ raw.method ++ "-qlora" :=
  ⟨rfl, rfl, rfl⟩

/-- C2 counterexample: with METHOD set to "grpo" in the environment and an
unresolvable naming function, `load_config_from_env` returns a configuration
whose current `method` field is "grpo" while `training.output_dir`,
`hf.hub_model_id` and `wandb_run_name` all still embed "ppo": after the overlay
they are not the naming string computed from the current `method` field. -/
theorem stale_derivation_counterexample :
    (load_config_from_env none (fun k => if k = "METHOD" then some ("grpo") else none)).map
        (fun c => (c.method, c.training.output_dir, c.hf.hub_model_id, c.wandb_run_name)) =
      Except.ok (("grpo", "./checkpoints/codellama-7b-ppo-qlora", "codellama-7b-ppo-qlora",
        some ("codellama-7b-ppo-qlora"))) ∧
    ("codellama-7b-ppo-qlora" : String) ≠ "codellama-7b-" ++ "grpo" ++ "-qlora" :=
  ⟨rfl, by decide⟩

/-- C2 amended: immediately after construction, the three derived fields equal
the naming string computed from the then-current `method` field; after the
`load_config_from_env` environment overlay they are instead exactly the string
computed from the construction-time default method "ppo" (the overlay never
recomputes them), whatever the naming-function resolution and environment. -/
theorem derived_fields_invariant (extract : Option (String → String))
    (raw : ExperimentConfig) (env : Env) (c : ExperimentConfig)
    (h : load_config_from_env extract env = Except.ok c) :
    ((mkExperimentConfig extract raw).hf.hub_model_id =
        resolve_model_short_name extract raw.model.model_name ++ "-" ++ raw.method ++ "-qlora" ∧
      (mkExperimentConfig extract raw).wandb_run_name =
        some (resolve_model_short_name extract raw.model.model_name ++ "-" ++
          raw.method ++ "-qlora") ∧
      (mkExperimentConfig extract raw).training.output_dir =
        "./checkpoints/" ++ resolve_model_short_name extract raw.model.model_name ++ "-" ++
          raw.method ++ "-qlora") ∧
    (c.hf.hub_model_id =
        resolve_model_short_name extract ("codellama/CodeLlama-7b-Python-hf") ++ "-" ++
          "ppo" ++ "-qlora" ∧
      c.wandb_run_name =
        some (resolve_model_short_name extract ("codellama/CodeLlama-7b-Python-hf") ++ "-" ++
          "ppo" ++ "-qlora") ∧
      c.training.output_dir =
        "./checkpoints/" ++ resolve_model_short_name extract ("codellama/CodeLlama-7b-Python-hf") ++
          "-" ++ "ppo" ++ "-qlora") := by
  refine ⟨⟨rfl, rfl, rfl⟩, ?_⟩
  rcases hT : env ("HF_TOKEN") with _ | t <;>
  rcases hW : env ("WANDB_PROJECT") with _ | p <;>
  rcases hM : env ("METHOD") with _ | m <;>
  simp only [load_config_from_env, hT, hW, hM] at h <;>
  (try split at h) <;>
  simp only [Except.ok.injEq, reduceCtorEq] at h <;>
  (subst h; exact ⟨rfl, rfl, rfl⟩)

/-- C2 witness: the amended invariant instantiated with an unresolvable naming
function, default construction arguments, and an empty environment. -/
theorem derived_fields_invariant_witness :
    load_config_from_env none (fun _ => none) =
      Except.ok (mkExperimentConfig none ({} : ExperimentConfig)) ∧
    (((mkExperimentConfig none ({} : ExperimentConfig)).hf.hub_model_id =
        resolve_model_short_name none ({} : ExperimentConfig).model.model_name ++ "-" ++
          ({} : ExperimentConfig).method ++ "-qlora" ∧
      (mkExperimentConfig none ({} : ExperimentConfig)).wandb_run_name =
        some (resolve_model_short_name none ({} : ExperimentConfig).model.model_name ++ "-" ++
          ({} : ExperimentConfig).method ++ "-qlora") ∧
      (mkExperimentConfig none ({} : ExperimentConfig)).training.output_dir =
        "./checkpoints/" ++ resolve_model_short_name none ({} : ExperimentConfig).model.model_name ++
          "-" ++ ({} : ExperimentConfig).method ++ "-qlora") ∧
    ((mkExperimentConfig none ({} : ExperimentConfig)).hf.hub_model_id =
        resolve_model_short_name none ("codellama/CodeLlama-7b-Python-hf") ++ "-" ++
          "ppo" ++ "-qlora" ∧
      (mkExperimentConfig none ({} : ExperimentConfig)).wandb_run_name =
        some (resolve_model_short_name none ("codellama/CodeLlama-7b-Python-hf") ++ "-" ++
          "ppo" ++ "-qlora") ∧
      (mkExperimentConfig none ({} : ExperimentConfig)).training.output_dir =
        "./checkpoints/" ++ resolve_model_short_name none ("codellama/CodeLlama-7b-Python-hf") ++
          "-" ++ "ppo" ++ "-qlora")) :=
  ⟨rfl, derived_fields_invariant none {} (fun _ => none) _ rfl⟩

/-- C3: when the METHOD environment variable is set, the returned configuration
has `method` equal to the lowercased METHOD value and the call returns normally
when that value is "ppo" or "grpo"; otherwise the call fails with the assertion
message carrying the offending lowercased value. -/
theorem method_overlay_validation (extract : Option (String → String)) (env : Env)
    (v : String) (hv : env ("METHOD") = some v) :
    (load_config_from_env extract env).map (fun c => c.method) =
      (if py_lower v = "ppo" ∨ py_lower v = "grpo" then Except.ok (py_lower v)
       else Except.error ("Method must be \x27ppo\x27 or \x27grpo\x27, got " ++ py_lower v)) := by
  rcases hT : env ("HF_TOKEN") with _ | t <;>
  rcases hW : env ("WANDB_PROJECT") with _ | p <;>
  simp only [load_config_from_env, hT, hW, hv] <;>
  split <;> rfl

/-- C3 witness: the method-overlay validation instantiated at METHOD = "GRPO",
which lowercases to the accepted value "grpo". -/
theorem method_overlay_validation_witness :
    ((fun k => if k = "METHOD" then some ("GRPO") else none) : Env) ("METHOD") = some ("GRPO") ∧
    (load_config_from_env none
        ((fun k => if k = "METHOD" then some ("GRPO") else none) : Env)).map
        (fun c => c.method) =
      (if py_lower ("GRPO") = "ppo" ∨ py_lower ("GRPO") = "grpo" then Except.ok (py_lower ("GRPO"))
       else Except.error ("Method must be \x27ppo\x27 or \x27grpo\x27, got " ++ py_lower ("GRPO"))) :=
  ⟨rfl, method_overlay_validation none _ "GRPO" rfl⟩

/-- C4: when the METHOD environment variable lowercases to "grpo" (differing
from the construction default "ppo"), the returned configuration carries the
new method while `training.output_dir`, `hf.hub_model_id` and `wandb_run_name`
still embed the original default method "ppo" from construction-time
derivation: the derivation step is not re-run by the overlay. -/
theorem overlay_does_not_rederive (extract : Option (String → String)) (env : Env)
    (v : String) (hv : env ("METHOD") = some v) (hg : py_lower v = "grpo") :
    (load_config_from_env extract env).map
        (fun c => (c.method, c.training.output_dir, c.hf.hub_model_id, c.wandb_run_name)) =
      Except.ok (("grpo",
        "./checkpoints/" ++ resolve_model_short_name extract ("codellama/CodeLlama-7b-Python-hf") ++
          "-" ++ "ppo" ++ "-qlora",
        resolve_model_short_name extract ("codellama/CodeLlama-7b-Python-hf") ++ "-" ++
          "ppo" ++ "-qlora",
        some (resolve_model_short_name extract ("codellama/CodeLlama-7b-Python-hf") ++ "-" ++
          "ppo" ++ "-qlora"))) ∧
    ("grpo" : String) ≠ "ppo" := by
  refine ⟨?_, by decide⟩
  rcases hT : env ("HF_TOKEN") with _ | t <;>
  rcases hW : env ("WANDB_PROJECT") with _ | p <;>
  simp only [load_config_from_env, hT, hW, hv, hg] <;> rfl

/-- C4 witness: the stale-derivation behaviour exhibited at METHOD = "GRPO"
with an unresolvable naming function. -/
theorem overlay_does_not_rederive_witness :
    ((fun k => if k = "METHOD" then some ("GRPO") else none) : Env) ("METHOD") = some ("GRPO") ∧
    py_lower ("GRPO") = "grpo" ∧
    ((load_config_from_env none
          ((fun k => if k = "METHOD" then some ("GRPO") else none) : Env)).map
        (fun c => (c.method, c.training.output_dir, c.hf.hub_model_id, c.wandb_run_name)) =
      Except.ok (("grpo",
        "./checkpoints/" ++ resolve_model_short_name none ("codellama/CodeLlama-7b-Python-hf") ++
          "-" ++ "ppo" ++ "-qlora",
        resolve_model_short_name none ("codellama/CodeLlama-7b-Python-hf") ++ "-" ++
          "ppo" ++ "-qlora",
        some (resolve_model_short_name none ("codellama/CodeLlama-7b-Python-hf") ++ "-" ++
          "ppo" ++ "-qlora"))) ∧
    ("grpo" : String) ≠ "ppo") :=
  ⟨rfl, rfl, overlay_does_not_rederive none _ "GRPO" rfl rfl⟩

/-- C7: a successfully returned configuration has `hf.hub_token` equal to the
raw HF_TOKEN environment value when present and still `none` when absent, and
`wandb_project` equal to the raw WANDB_PROJECT value when present and the
default "codellama-mbpp-finetuning" when absent. -/
theorem token_and_project_overlay (extract : Option (String → String)) (env : Env)
    (c : ExperimentConfig) (h : load_config_from_env extract env = Except.ok c) :
    (∀ t, env ("HF_TOKEN") = some t → c.hf.hub_token = some t) ∧
    (env ("HF_TOKEN") = none → c.hf.hub_token = none) ∧
    (∀ p, env ("WANDB_PROJECT") = some p → c.wandb_project = p) ∧
    (env ("WANDB_PROJECT") = none → c.wandb_project = "codellama-mbpp-finetuning") := by
  rcases hT : env ("HF_TOKEN") with _ | t <;>
  rcases hW : env ("WANDB_PROJECT") with _ | p <;>
  rcases hM : env ("METHOD") with _ | m <;>
  simp only [load_config_from_env, hT, hW, hM] at h <;>
  (try split at h) <;>
  simp only [Except.ok.injEq, reduceCtorEq] at h <;>
  subst h <;>
  refine ⟨?_, ?_, ?_, ?_⟩ <;> intros <;> simp_all [mkExperimentConfig, post_init]

/-- C7 witness: the token and project overlay instantiated at an environment
holding only HF_TOKEN = "abc123". -/
theorem token_and_project_overlay_witness :
    load_config_from_env none env_with_token = Except.ok cfg_with_token ∧
    ((∀ t, env_with_token ("HF_TOKEN") = some t → cfg_with_token.hf.hub_token = some t) ∧
     (env_with_token ("HF_TOKEN") = none → cfg_with_token.hf.hub_token = none) ∧
     (∀ p, env_with_token ("WANDB_PROJECT") = some p → cfg_with_token.wandb_project = p) ∧
     (env_with_token ("WANDB_PROJECT") = none →
       cfg_with_token.wandb_project = "codellama-mbpp-finetuning")) :=
  ⟨rfl, token_and_project_overlay none env_with_token cfg_with_token rfl⟩

/-- C9: the configuration returned by `load_config_from_env` differs from a
freshly constructed default `ExperimentConfig` in at most the three fields
`hf.hub_token`, `wandb_project` and `method` (every other field of every
sub-record keeps its post-construction value), and only the HF_TOKEN,
WANDB_PROJECT and METHOD variables affect the result: any environment agreeing
with the given one on those three keys yields the same result. -/
theorem load_config_frame (extract : Option (String → String)) (env env2 : Env)
    (c : ExperimentConfig)
    (h : load_config_from_env extract env = Except.ok c)
    (h1 : env2 ("HF_TOKEN") = env ("HF_TOKEN"))
    (h2 : env2 ("WANDB_PROJECT") = env ("WANDB_PROJECT"))
    (h3 : env2 ("METHOD") = env ("METHOD")) :
    c = { mkExperimentConfig extract ({} : ExperimentConfig) with
          hf := { (mkExperimentConfig extract ({} : ExperimentConfig)).hf with
            hub_token := c.hf.hub_token },
          wandb_project := c.wandb_project,
          method := c.method } ∧
    load_config_from_env extract env2 = Except.ok c := by
  rcases hT : env ("HF_TOKEN") with _ | t <;>
  rcases hW : env ("WANDB_PROJECT") with _ | p <;>
  rcases hM : env ("METHOD") with _ | m <;>
  rw [hT] at h1 <;> rw [hW] at h2 <;> rw [hM] at h3 <;>
  simp only [load_config_from_env, hT, hW, hM] at h <;>
  (try split at h) <;>
  simp only [Except.ok.injEq, reduceCtorEq] at h <;>
  subst h <;>
  refine ⟨rfl, ?_⟩ <;>
  simp only [load_config_from_env, h1, h2, h3] <;>
  first
    | rfl
    | (rename_i hcond; rw [if_pos hcond])

/-- C9 witness: the frame property instantiated at the empty environment,
compared against itself. -/
theorem load_config_frame_witness :
    load_config_from_env none env_empty =
      Except.ok (mkExperimentConfig none ({} : ExperimentConfig)) ∧
    env_empty ("HF_TOKEN") = env_empty ("HF_TOKEN") ∧
    env_empty ("WANDB_PROJECT") = env_empty ("WANDB_PROJECT") ∧
    env_empty ("METHOD") = env_empty ("METHOD") ∧
    (mkExperimentConfig none ({} : ExperimentConfig) =
      { mkExperimentConfig none ({} : ExperimentConfig) with
        hf := { (mkExperimentConfig none ({} : ExperimentConfig)).hf with
          hub_token := (mkExperimentConfig none ({} : ExperimentConfig)).hf.hub_token },
        wandb_project := (mkExperimentConfig none ({} : ExperimentConfig)).wandb_project,
        method := (mkExperimentConfig none ({} : ExperimentConfig)).method } ∧
     load_config_from_env none env_empty =
       Except.ok (mkExperimentConfig none ({} : ExperimentConfig))) :=
  ⟨rfl, rfl, rfl, rfl, load_config_frame none env_empty env_empty _ rfl rfl rfl rfl⟩

/-- C10: every configuration produced by the public operations — construction
of an `ExperimentConfig` with any arguments, and any successful
`load_config_from_env` call — satisfies the mutual-consistency invariant
`wandb_run_name == some hub_model_id` and
`training.output_dir == "./checkpoints/" ++ hub_model_id`, even when the
`method` field has gone stale relative to those names. -/
theorem naming_consistency_invariant (extract : Option (String → String))
    (raw : ExperimentConfig) (env : Env) (c : ExperimentConfig)
    (h : load_config_from_env extract env = Except.ok c) :
    ((mkExperimentConfig extract raw).wandb_run_name =
        some ((mkExperimentConfig extract raw).hf.hub_model_id) ∧
      (mkExperimentConfig extract raw).training.output_dir =
        "./checkpoints/" ++ (mkExperimentConfig extract raw).hf.hub_model_id) ∧
    (c.wandb_run_name = some (c.hf.hub_model_id) ∧
      c.training.output_dir = "./checkpoints/" ++ c.hf.hub_model_id) := by
  have hc : ∀ e : Option (String → String), ∀ r : ExperimentConfig,
      (mkExperimentConfig e r).training.output_dir =
        "./checkpoints/" ++ (mkExperimentConfig e r).hf.hub_model_id := by
    intro e r
    simp only [mkExperimentConfig, post_init]
    simp only [str_append_assoc]
  refine ⟨⟨rfl, hc extract raw⟩, ?_⟩
  rcases hT : env ("HF_TOKEN") with _ | t <;>
  rcases hW : env ("WANDB_PROJECT") with _ | p <;>
  rcases hM : env ("METHOD") with _ | m <;>
  simp only [load_config_from_env, hT, hW, hM] at h <;>
  (try split at h) <;>
  simp only [Except.ok.injEq, reduceCtorEq] at h <;>
  subst h <;>
  exact ⟨rfl, hc extract {}⟩

/-- C10 witness: the consistency invariant instantiated at an unresolvable
naming function, default construction arguments, and the empty environment. -/
theorem naming_consistency_invariant_witness :
    load_config_from_env none env_empty =
      Except.ok (mkExperimentConfig none ({} : ExperimentConfig)) ∧
    (((mkExperimentConfig none ({} : ExperimentConfig)).wandb_run_name =
        some ((mkExperimentConfig none ({} : ExperimentConfig)).hf.hub_model_id) ∧
      (mkExperimentConfig none ({} : ExperimentConfig)).training.output_dir =
        "./checkpoints/" ++ (mkExperimentConfig none ({} : ExperimentConfig)).hf.hub_model_id) ∧
    ((mkExperimentConfig none ({} : ExperimentConfig)).wandb_run_name =
        some ((mkExperimentConfig none ({} : ExperimentConfig)).hf.hub_model_id) ∧
      (mkExperimentConfig none ({} : ExperimentConfig)).training.output_dir =
        "./checkpoints/" ++ (mkExperimentConfig none ({} : ExperimentConfig)).hf.hub_model_id)) :=
  ⟨rfl, naming_consistency_invariant none {} env_empty _ rfl⟩
